import Mathlib

/-!
Verification of the apigene/mcp-apps host-messaging and payload-normalization
core against its specification.

The development shallowly embeds the JavaScript/TypeScript code of the
repository: JSON-ish runtime values become the inductive `JSVal`; JavaScript
property access, truthiness, `typeof`, `||`, `??` and `String(...)` coercion
become total Lean functions, except that property access on `null`/`undefined`
(which throws a TypeError in JavaScript) is modelled in the `Option` monad, so
"the function never throws" becomes "the embedding returns `some _`".
Message handlers are embedded as functions from an inbound value to the list
of observable effects they emit (posts, renders, UI states, console output).
-/

namespace McpApps

/-- A JavaScript runtime value as produced by `postMessage`/JSON payloads:
`undefined`, `null`, booleans, numbers (modelled as integers; the claims under
study only involve integral numbers), strings, arrays and plain objects. -/
inductive JSVal where
  | undefined : JSVal
  | null : JSVal
  | bool : Bool → JSVal
  | num : Int → JSVal
  | str : String → JSVal
  | arr : List JSVal → JSVal
  | obj : List (String × JSVal) → JSVal

/-- JavaScript truthiness: `undefined`, `null`, `false`, `0` and `""` are
falsy; every array and object is truthy. -/
def truthy : JSVal → Bool
  | .undefined => false
  | .null => false
  | .bool b => b
  | .num n => n != 0
  | .str s => s != ""
  | .arr _ => true
  | .obj _ => true

/-- `typeof v` as a string. `typeof null` is `"object"`, as in JavaScript. -/
def typeofStr : JSVal → String
  | .undefined => "undefined"
  | .null => "object"
  | .bool _ => "boolean"
  | .num _ => "number"
  | .str _ => "string"
  | .arr _ => "object"
  | .obj _ => "object"

/-- `Array.isArray`. -/
def isArr : JSVal → Bool
  | .arr _ => true
  | _ => false

/-- A value is nullish (`undefined` or `null`) — the values on which property
access throws and which `??` skips. -/
def nullish : JSVal → Bool
  | .undefined => true
  | .null => true
  | _ => false

/-- Look a key up in an object's field list; an absent key reads as
`undefined`, exactly as in JavaScript. -/
def lookupField : List (String × JSVal) → String → JSVal
  | [], _ => .undefined
  | (k, v) :: fs, key => if k == key then v else lookupField fs key

/-- Plain property access `v.k`. Throws (returns `none`) if `v` is nullish;
objects look the key up in their fields; named access on arrays, strings,
numbers and booleans reads `undefined` (none of the embedded code reads a
built-in property such as `length` through generic access — the one
`.length` read, in part_004's Format 1 rule, is modelled by `arrLenPos`). -/
def jsGet : JSVal → String → Option JSVal
  | .undefined, _ => none
  | .null, _ => none
  | .obj fs, k => some (lookupField fs k)
  | .arr _, _ => some .undefined
  | .str _, _ => some .undefined
  | .bool _, _ => some .undefined
  | .num _, _ => some .undefined

/-- Optional-chaining access `v?.k`: `undefined` on a nullish base, otherwise
the same as plain access (which cannot throw on a non-nullish base). -/
def jsGetOpt (v : JSVal) (k : String) : JSVal :=
  match v with
  | .undefined => .undefined
  | .null => .undefined
  | w => (jsGet w k).getD .undefined

/-- Short-circuit `a || b`. -/
def jsOr (a b : JSVal) : JSVal := if truthy a then a else b

/-- Nullish coalescing `a ?? b`. -/
def jsCoalesce (a b : JSVal) : JSVal := if nullish a then b else a

mutual

/-- Structural equality, standing in for JavaScript `===` in the places the
code compares against literals (strings, numbers, `undefined`); on objects it
over-approximates reference equality (reference-equal values are structurally
equal). -/
def beq : JSVal → JSVal → Bool
  | .undefined, .undefined => true
  | .null, .null => true
  | .bool a, .bool b => a == b
  | .num a, .num b => a == b
  | .str a, .str b => a == b
  | .arr a, .arr b => beqList a b
  | .obj a, .obj b => beqFields a b
  | _, _ => false

/-- Elementwise structural equality of array contents. -/
def beqList : List JSVal → List JSVal → Bool
  | [], [] => true
  | x :: xs, y :: ys => beq x y && beqList xs ys
  | _, _ => false

/-- Fieldwise structural equality of object contents. -/
def beqFields : List (String × JSVal) → List (String × JSVal) → Bool
  | [], [] => true
  | (k, v) :: xs, (l, w) :: ys => k == l && beq v w && beqFields xs ys
  | _, _ => false

end

/-- `Array.isArray(rows) && rows.length > 0` — the non-empty-array test used
by the part_004 normalizer's Format 1 rule. -/
def arrLenPos : JSVal → Bool
  | .arr xs => decide (0 < xs.length)
  | _ => false

/-! ## Payload Normalizer (`unwrapData`)

Three variants appear in the repository.  Each is embedded in the `Option`
monad: `none` models a thrown TypeError, so totality claims are `isSome`
statements.  Where the JavaScript uses a plain access whose base is known
truthy from the guard just established (e.g. `data.rows.columns` under
`data.rows && ...`), the embedding uses `jsGetOpt`, which agrees with plain
access on every non-nullish base. -/

/-- `unwrapData` from `src/templates/anchor/src/mcp-app.ts` (lines 22-46):
the nine-rule precedence chain of the spec plus a final screenshot-shape rule
that also returns the payload unchanged. -/
def unwrapData_anchor (data : JSVal) : Option JSVal :=
  -- if (!data) return null;
  if truthy data = false then some .null else
  -- if (data.message?.template_data) return data.message.template_data;
  (jsGet data "message").bind fun message =>
  if truthy (jsGetOpt message "template_data") then some (jsGetOpt message "template_data") else
  -- if (data.message?.response_content) return data.message.response_content;
  if truthy (jsGetOpt message "response_content") then some (jsGetOpt message "response_content") else
  -- if (data.data?.results) ... items ... records
  (jsGet data "data").bind fun d =>
  if truthy (jsGetOpt d "results") then some (jsGetOpt d "results") else
  if truthy (jsGetOpt d "items") then some (jsGetOpt d "items") else
  if truthy (jsGetOpt d "records") then some (jsGetOpt d "records") else
  -- if (data.results) ... (data.items) ... (data.records)
  (jsGet data "results").bind fun results =>
  if truthy results then some results else
  (jsGet data "items").bind fun items =>
  if truthy items then some items else
  (jsGet data "records").bind fun records =>
  if truthy records then some records else
  -- if (data.rows && typeof data.rows === "object" && !Array.isArray(data.rows)
  --     && data.rows.columns && data.rows.rows) return data.rows;
  (jsGet data "rows").bind fun rows =>
  if truthy rows && typeofStr rows == "object" && !isArr rows
      && truthy (jsGetOpt rows "columns") && truthy (jsGetOpt rows "rows") then some rows else
  -- if (data.columns || Array.isArray(data.rows)) return data;
  (jsGet data "columns").bind fun columns =>
  if truthy columns || isArr rows then some data else
  -- if (Array.isArray(data)) return { rows: data };
  if isArr data then some (.obj [("rows", data)]) else
  -- if (data.body && typeof data.body.data === "string") return data;
  (jsGet data "body").bind fun body =>
  if truthy body && typeofStr (jsGetOpt body "data") == "string" then some data else
  -- return data;
  some data

/-- `unwrapData` from `src/examples/base-template-sdk/src/mcp-app.ts`
(lines 66-107): identical to the anchor variant minus the screenshot rule. -/
def unwrapData_baseSdk (data : JSVal) : Option JSVal :=
  if truthy data = false then some .null else
  (jsGet data "message").bind fun message =>
  if truthy (jsGetOpt message "template_data") then some (jsGetOpt message "template_data") else
  if truthy (jsGetOpt message "response_content") then some (jsGetOpt message "response_content") else
  (jsGet data "data").bind fun d =>
  if truthy (jsGetOpt d "results") then some (jsGetOpt d "results") else
  if truthy (jsGetOpt d "items") then some (jsGetOpt d "items") else
  if truthy (jsGetOpt d "records") then some (jsGetOpt d "records") else
  (jsGet data "results").bind fun results =>
  if truthy results then some results else
  (jsGet data "items").bind fun items =>
  if truthy items then some items else
  (jsGet data "records").bind fun records =>
  if truthy records then some records else
  (jsGet data "rows").bind fun rows =>
  if truthy rows && typeofStr rows == "object" && !isArr rows
      && truthy (jsGetOpt rows "columns") && truthy (jsGetOpt rows "rows") then some rows else
  (jsGet data "columns").bind fun columns =>
  if truthy columns || isArr rows then some data else
  if isArr data then some (.obj [("rows", data)]) else
  some data

/-- `unwrapData` from `src/unnamed/part_004` (lines 55-93), the "Format 1
short-circuit" variant: before any unwrapping it returns the payload whole
when it has `.columns`, a non-empty `.rows` array, or is any object without a
`.message` field — a test every plain object *and every array* without
`.message` passes. -/
def unwrapData_part004 (data : JSVal) : Option JSVal :=
  -- if (!data) return null;
  if truthy data = false then some .null else
  -- if (data.columns || (Array.isArray(data.rows) && data.rows.length > 0) ||
  --     (typeof data === 'object' && !data.message)) return data;
  (jsGet data "columns").bind fun columns =>
  (jsGet data "rows").bind fun rows =>
  (jsGet data "message").bind fun message =>
  if truthy columns || (isArr rows && arrLenPos rows)
      || (typeofStr data == "object" && !truthy message) then some data else
  -- if (data.message?.template_data) ... (data.message?.response_content)
  if truthy (jsGetOpt message "template_data") then some (jsGetOpt message "template_data") else
  if truthy (jsGetOpt message "response_content") then some (jsGetOpt message "response_content") else
  -- if (data.data?.results) ... items ... records, then top-level
  (jsGet data "data").bind fun d =>
  if truthy (jsGetOpt d "results") then some (jsGetOpt d "results") else
  if truthy (jsGetOpt d "items") then some (jsGetOpt d "items") else
  if truthy (jsGetOpt d "records") then some (jsGetOpt d "records") else
  (jsGet data "results").bind fun results =>
  if truthy results then some results else
  (jsGet data "items").bind fun items =>
  if truthy items then some items else
  (jsGet data "records").bind fun records =>
  if truthy records then some records else
  -- if (Array.isArray(data.rows)) return data;
  if isArr rows then some data else
  -- if (Array.isArray(data)) return { rows: data };
  if isArr data then some (.obj [("rows", data)]) else
  some data

/-! ## HTML escaping and string coercion -/

/-- One character of the browser `textContent`-to-`innerHTML` round trip used
by every template's `escapeHtml`: `&`, `<` and `>` become entities, all other
characters pass through. -/
def escapeChar (c : Char) : String :=
  if c = '&' then "&amp;"
  else if c = '<' then "&lt;"
  else if c = '>' then "&gt;"
  else String.singleton c

/-- The string-level escaping performed by `div.textContent = s; div.innerHTML`. -/
def escapeStringDom (s : String) : String :=
  String.join (s.toList.map escapeChar)

mutual

/-- JavaScript `String(x)` coercion: the standard primitive conversions,
arrays via `Array.prototype.toString`, plain objects as "[object Object]". -/
def jsString : JSVal → String
  | .undefined => "undefined"
  | .null => "null"
  | .bool true => "true"
  | .bool false => "false"
  | .num n => toString n
  | .str s => s
  | .arr xs => jsStringArr xs
  | .obj _ => "[object Object]"

/-- Array stringification: elements joined with commas, nullish elements
printed as empty strings. -/
def jsStringArr : List JSVal → String
  | [] => ""
  | [x] => if nullish x then "" else jsString x
  | x :: xs => (if nullish x then "" else jsString x) ++ "," ++ jsStringArr xs

end

/-- `escapeHtml` from `src/unnamed/part_004` (lines 99-104): a non-string
argument is returned unchanged (`if (typeof str !== "string") return str;`). -/
def escapeHtml_part004 (v : JSVal) : JSVal :=
  match v with
  | .str s => .str (escapeStringDom s)
  | w => w

/-- `escapeHtml` from `src/templates/anchor/src/mcp-app.ts` (lines 48-53):
a non-string argument is coerced (`if (typeof str !== "string") return
String(str);`). -/
def escapeHtml_anchor (v : JSVal) : JSVal :=
  match v with
  | .str s => .str (escapeStringDom s)
  | w => .str (jsString w)

/-! ## Reachability: values nested inside a value -/

/-- `x` is a direct member of `v`: an element of an array or a field value of
an object. -/
inductive MemVal : JSVal → JSVal → Prop where
  | arrMem {x : JSVal} {xs : List JSVal} : x ∈ xs → MemVal x (.arr xs)
  | objMem {x : JSVal} {k : String} {fs : List (String × JSVal)} :
      (k, x) ∈ fs → MemVal x (.obj fs)

/-- `Reach x v`: `x` is `v` itself or a value nested somewhere inside `v`. -/
inductive Reach : JSVal → JSVal → Prop where
  | refl (v : JSVal) : Reach v v
  | step {x y v : JSVal} : Reach x y → MemVal y v → Reach x v


/-! ## Message Channel Adapter: inbound listeners as effect traces

Each `window.addEventListener('message', ...)` handler is embedded as a
function from the inbound value to the list of observable effects the handler
performs, in order.  `none` models an uncaught exception escaping the
listener.  Two handlers also carry the module-level mutable flags their
teardown branch clears. -/

/-- One observable side effect of a message listener. -/
inductive Effect where
  | post (m : JSVal)
  | render (d : JSVal)
  | showEmpty (s : String)
  | showError (s : String)
  | consoleInfo (s : String)
  | consoleWarn (s : String)
  | consoleLog (s : String)
  | applyTheme (v : JSVal)
  | applyFonts (v : JSVal)
  | applyVars (v : JSVal)
  | setDisplayMode (v : JSVal)
  | bodyClassAdd (s : String)
  | bodyClassRemove (s : String)
  | clearSizeTimer
  | disconnectResizeObserver
  | removeScrollListener

/-- The teardown acknowledgment `{jsonrpc:"2.0", id, result:{}}`. -/
def teardownResp (idv : JSVal) : JSVal :=
  .obj [("jsonrpc", .str "2.0"), ("id", idv), ("result", .obj [])]

/-- The outbound `postMessage` calls of an effect trace, in order. -/
def postsOf (es : List Effect) : List JSVal :=
  es.filterMap fun e => match e with | .post m => some m | _ => none

/-- The `host-context-changed` effect sequence shared by the part_004-style
handlers: theme, fonts, style variables, then display mode, each applied only
when the corresponding `params` field is truthy. -/
def hostContextEffects (params : JSVal) : List Effect :=
  (if truthy (jsGetOpt params "theme") then [.applyTheme (jsGetOpt params "theme")] else [])
  ++ (if truthy (jsGetOpt (jsGetOpt (jsGetOpt params "styles") "css") "fonts")
        then [.applyFonts (jsGetOpt (jsGetOpt (jsGetOpt params "styles") "css") "fonts")] else [])
  ++ (if truthy (jsGetOpt (jsGetOpt params "styles") "variables")
        then [.applyVars (jsGetOpt (jsGetOpt params "styles") "variables")] else [])

/-- The message listener of `src/unnamed/part_004` (lines 411-480): guard
clauses, the teardown request branch, then the method switch.  In the default
branch, `fallbackData !== msg` (a reference comparison in JavaScript) is
modelled by structural disequality, which coincides on the acyclic values a
`postMessage` transport can deliver. -/
def handler_part004 (msg : JSVal) : Option (List Effect) :=
  -- if (!msg || msg.jsonrpc !== '2.0') return;
  if truthy msg = false then some [] else
  (jsGet msg "jsonrpc").bind fun jr =>
  if !beq jr (.str "2.0") then some [] else
  -- if (msg.id !== undefined && !msg.method) return;
  (jsGet msg "id").bind fun idv =>
  (jsGet msg "method").bind fun method =>
  if !beq idv .undefined && !truthy method then some [] else
  -- if (msg.id !== undefined && msg.method === 'ui/resource-teardown') { ... }
  if !beq idv .undefined && beq method (.str "ui/resource-teardown") then
    some [.consoleInfo "Resource teardown requested", .post (teardownResp idv)] else
  -- switch (msg.method)
  (jsGet msg "params").bind fun params =>
  if beq method (.str "ui/notifications/tool-result") then
    -- const data = msg.params?.structuredContent || msg.params;
    let data := jsOr (jsGetOpt params "structuredContent") params
    if !beq data .undefined then some [.render data]
    else some [.consoleWarn "ui/notifications/tool-result received but no data found",
               .showEmpty "No data received"]
  else if beq method (.str "ui/notifications/host-context-changed") then
    some (hostContextEffects params
      ++ (if truthy (jsGetOpt params "displayMode")
            then [.setDisplayMode (jsGetOpt params "displayMode")] else []))
  else if beq method (.str "ui/notifications/tool-input") then some []
  else if beq method (.str "ui/notifications/initialized") then some []
  else
    -- default: if (msg.params) { const fallbackData = ...; if (fallbackData && fallbackData !== msg) ... }
    if truthy params then
      let fallbackData := jsOr (jsGetOpt params "structuredContent") params
      if truthy fallbackData && !beq fallbackData msg then
        some [.consoleWarn "Unknown method - attempting to render data", .render fallbackData]
      else some []
    else some []

/-- The message listener of `src/templates/anchor/src/mcp-app.ts`
(lines 127-157): an if-chain with no default fallback; the teardown branch is
last and guarded by `msg.id !== undefined`. -/
def handler_anchor (msg : JSVal) : Option (List Effect) :=
  -- if (!msg) return;
  if truthy msg = false then some [] else
  (jsGet msg "jsonrpc").bind fun jr =>
  if beq jr (.str "2.0") then
    (jsGet msg "method").bind fun method =>
    (jsGet msg "params").bind fun params =>
    if beq method (.str "ui/notifications/tool-result") && truthy params then
      some [.render (jsOr (jsGetOpt params "structuredContent") params)]
    else if beq method (.str "ui/notifications/host-context-changed") && truthy params then
      some (hostContextEffects params
        ++ (if beq (jsGetOpt params "displayMode") (.str "fullscreen")
              then [.bodyClassAdd "fullscreen-mode"] else [.bodyClassRemove "fullscreen-mode"]))
    else if beq method (.str "ui/notifications/tool-cancelled") then
      some [.showError ("Operation cancelled: "
        ++ jsString (jsOr (jsGetOpt params "reason") (.str "Unknown reason")))]
    else
      (jsGet msg "id").bind fun idv =>
      if !beq idv .undefined && beq method (.str "ui/resource-teardown") then
        some [.post (teardownResp idv)]
      else some []
  else some []

/-- The module-level mutable flags of `src/unnamed/part_005` that its teardown
branch clears: `sizeChangeTimeout`, `resizeObserver`, `carouselWrapper`
(each modelled as "currently non-null"). -/
structure P5State where
  sizeChangeTimeout : Bool
  resizeObserver : Bool
  carouselWrapper : Bool

/-- The inline cleanup of part_005's teardown branch: clear the size-change
timer, disconnect the resize observer, remove the carousel scroll listener —
each guarded by its flag.  All three are built-in calls that cannot throw. -/
def p5Cleanup (st : P5State) : List Effect :=
  (if st.sizeChangeTimeout then [.clearSizeTimer] else [])
  ++ (if st.resizeObserver then [.disconnectResizeObserver] else [])
  ++ (if st.carouselWrapper then [.removeScrollListener] else [])

/-- The message listener of `src/unnamed/part_005` (lines 939-1049): the
teardown request branch runs the inline cleanup and then posts the
acknowledgment; a second teardown case inside the switch is reachable only
when `id` is undefined and then posts nothing. -/
def handler_part005 (st : P5State) (msg : JSVal) : Option (List Effect × P5State) :=
  if truthy msg = false then some ([], st) else
  (jsGet msg "jsonrpc").bind fun jr =>
  if !beq jr (.str "2.0") then some ([], st) else
  (jsGet msg "id").bind fun idv =>
  (jsGet msg "method").bind fun method =>
  -- if (msg.id !== undefined && msg.method === 'ui/resource-teardown') { cleanup; respond; }
  if !beq idv .undefined && beq method (.str "ui/resource-teardown") then
    some (p5Cleanup st ++ [.post (teardownResp idv)],
      { sizeChangeTimeout := false, resizeObserver := false,
        carouselWrapper := st.carouselWrapper }) else
  -- if (msg.id !== undefined && !msg.method) return;
  if !beq idv .undefined && !truthy method then some ([], st) else
  (jsGet msg "params").bind fun params =>
  if beq method (.str "ui/notifications/tool-result") then
    let data := jsOr (jsGetOpt params "structuredContent") params
    if !beq data .undefined then some ([.render data], st)
    else some ([.consoleWarn "ui/notifications/tool-result received but no data found",
                .showEmpty "No data received"], st)
  else if beq method (.str "ui/notifications/host-context-changed") then
    some ([.consoleInfo "Host context changed"] ++ hostContextEffects params
      ++ (if beq (jsGetOpt params "displayMode") (.str "fullscreen")
            then [.bodyClassAdd "fullscreen-mode"] else [.bodyClassRemove "fullscreen-mode"]), st)
  else if beq method (.str "ui/notifications/tool-cancelled") then
    some ([.consoleInfo "Tool cancelled",
      .showError ("Operation cancelled: "
        ++ jsString (jsOr (jsGetOpt params "reason") (.str "Unknown reason")))], st)
  else if beq method (.str "ui/resource-teardown") then
    -- reached only when msg.id is undefined; posts only under that id check
    some ([.consoleInfo "Resource teardown requested"]
      ++ (if !beq idv .undefined then [.post (teardownResp idv)] else []), st)
  else if beq method (.str "ui/notifications/tool-input") then
    some ((if truthy (jsGetOpt params "arguments")
            then [.consoleLog "Tool input received"] else []), st)
  else if beq method (.str "ui/notifications/initialized") then some ([], st)
  else
    if truthy params then
      let fallbackData := jsOr (jsGetOpt params "structuredContent") params
      if truthy fallbackData && !beq fallbackData msg then
        some ([.consoleWarn "Unknown method - attempting to render data",
               .render fallbackData], st)
      else some ([], st)
    else some ([], st)

/-- The module-level mutable flags of the google-calendar-events listener. -/
structure GcalState where
  sizeChangeTimeout : Bool
  resizeObserver : Bool

/-- The message listener of
`src/examples/google-calendar-events/src/mcp-app.ts` (lines 217-253): the
variant whose tool-result branch selects the payload with `??` rather than
`||`. -/
def handler_gcal (st : GcalState) (msg : JSVal) : Option (List Effect × GcalState) :=
  if truthy msg = false then some ([], st) else
  (jsGet msg "jsonrpc").bind fun jr =>
  if !beq jr (.str "2.0") then some ([], st) else
  (jsGet msg "id").bind fun idv =>
  (jsGet msg "method").bind fun method =>
  if !beq idv .undefined && beq method (.str "ui/resource-teardown") then
    some ((if st.sizeChangeTimeout then [.clearSizeTimer] else [])
      ++ (if st.resizeObserver then [.disconnectResizeObserver] else [])
      ++ [.post (teardownResp idv)],
      { sizeChangeTimeout := false, resizeObserver := false }) else
  if !beq idv .undefined && !truthy method then some ([], st) else
  (jsGet msg "params").bind fun params =>
  if beq method (.str "ui/notifications/tool-result") then
    -- const data = msg.params?.structuredContent ?? msg.params;
    let data := jsCoalesce (jsGetOpt params "structuredContent") params
    if !beq data .undefined then some ([.render data], st)
    else some ([.showEmpty "No data received."], st)
  else if beq method (.str "ui/notifications/host-context-changed") then
    some ((if beq (jsGetOpt params "theme") (.str "dark") then [.bodyClassAdd "dark"]
           else if beq (jsGetOpt params "theme") (.str "light") then [.bodyClassRemove "dark"]
           else [])
      ++ (if truthy (jsGetOpt params "displayMode")
            then [.setDisplayMode (jsGetOpt params "displayMode")] else []), st)
  else if beq method (.str "ui/notifications/tool-cancelled") then
    some ([.showError ("Cancelled: "
      ++ jsString (jsOr (jsGetOpt params "reason") (.str "Tool cancelled")))], st)
  else
    if truthy params then
      let fb := jsCoalesce (jsGetOpt params "structuredContent") params
      if truthy fb && !beq fb msg then some ([.render fb], st) else some ([], st)
    else some ([], st)

/-- A well-formed `ui/notifications/tool-result` notification carrying the
given `params` value. -/
def toolResultMsg (p : JSVal) : JSVal :=
  .obj [("jsonrpc", .str "2.0"), ("method", .str "ui/notifications/tool-result"),
    ("params", p)]

/-! ## Request/response correlation (`sendRequest`)

`sendRequest` in `src/unnamed/part_004` (lines 490-514) and
`src/unnamed/part_006` (lines 537-561):

* `let requestIdCounter = 1;` and `const id = requestIdCounter++;` assign ids;
* a `message` listener resolves on a matching reply with a truthy `result`,
  rejects on a truthy `error`, and removes itself once a matching id is seen;
* an uncleared `setTimeout(..., 5000)` removes the listener and rejects.

The per-call race is embedded as a fold over the chronologically ordered
events the call observes: inbound replies, and the firing of its 5-second
timer (the timer is never cleared, so it appears in every complete trace).
The promise's settle-once rule is `settle`: the first settlement wins. -/

/-- `const id = requestIdCounter++` — returns the assigned id and the new
counter value. -/
def sendRequestId (counter : Int) : Int × Int := (counter, counter + 1)

/-- The ids assigned by `n` consecutive `sendRequest` calls starting from the
given counter value. -/
def idsFrom (c : Int) : Nat → List Int
  | 0 => []
  | n + 1 => (sendRequestId c).1 :: idsFrom (sendRequestId c).2 n

/-- An event observed by one pending `sendRequest` call, in delivery order. -/
inductive Ev where
  | reply (m : JSVal)
  | timeoutFire

/-- How the returned promise settled. -/
inductive Outcome where
  | resolved (v : JSVal)
  | rejectedError (msg : JSVal)
  | rejectedTimeout

/-- Promise settlement: only the first `resolve`/`reject` takes effect. -/
def settle (s : Option Outcome) (o : Outcome) : Option Outcome :=
  match s with
  | some x => some x
  | none => some o

/-- State of one pending request: whether its `message` listener is still
registered, and whether (and how) its promise has settled. -/
structure RState where
  active : Bool
  outcome : Option Outcome

/-- One event step of the pending request, mirroring the listener and timeout
callbacks of `sendRequest`:
the timer removes the listener and rejects with the timeout error; a reply
with `event.data?.id === id` (while the listener is registered) removes the
listener, then resolves on a truthy `result`, rejects with
`error.message || 'Unknown error'` on a truthy `error`, and otherwise settles
nothing. -/
def stepReq (id : Int) (s : RState) : Ev → RState
  | .timeoutFire =>
    { active := false, outcome := settle s.outcome .rejectedTimeout }
  | .reply m =>
    if s.active && beq (jsGetOpt m "id") (.num id) then
      { active := false,
        outcome :=
          if truthy (jsGetOpt m "result") then
            settle s.outcome (.resolved (jsGetOpt m "result"))
          else if truthy (jsGetOpt m "error") then
            settle s.outcome (.rejectedError
              (jsOr (jsGetOpt (jsGetOpt m "error") "message") (.str "Unknown error")))
          else s.outcome }
    else s

/-- The state of a pending request with the given id after observing the
given events, starting with a live listener and an unsettled promise. -/
def runReq (id : Int) (evs : List Ev) : RState :=
  evs.foldl (stepReq id) ⟨true, none⟩

/-- An event that does not touch the request with the given id: a reply whose
id does not match.  (The timer firing is never inert.) -/
def inertFor (id : Int) : Ev → Bool
  | .reply m => !beq (jsGetOpt m "id") (.num id)
  | .timeoutFire => false

/-! ## Basic lemmas about the JavaScript primitives -/

lemma someBind {α β : Type} (a : α) (f : α → Option β) :
    (Option.some a).bind f = f a := rfl

lemma jsGet_eq_some {v : JSVal} (hv : truthy v = true) (k : String) :
    jsGet v k = some (jsGetOpt v k) := by
  cases v <;> simp_all [truthy, jsGet, jsGetOpt]

lemma lookupField_mem (fs : List (String × JSVal)) (k : String) :
    lookupField fs k = .undefined ∨ (k, lookupField fs k) ∈ fs := by
  induction fs with
  | nil => exact Or.inl rfl
  | cons hd tl ih =>
    obtain ⟨k₀, v₀⟩ := hd
    by_cases hk : k₀ == k
    · simp only [lookupField, hk, if_true]
      have : k₀ = k := by simpa using hk
      subst this
      exact Or.inr (List.mem_cons_self _ _)
    · simp only [lookupField, hk, if_false]
      rcases ih with h | h
      · exact Or.inl h
      · exact Or.inr (List.mem_cons_of_mem _ h)

lemma memVal_jsGetOpt {v : JSVal} {k : String}
    (h : truthy (jsGetOpt v k) = true) : MemVal (jsGetOpt v k) v := by
  cases v with
  | obj fs =>
    rcases lookupField_mem fs k with hu | hm
    · simp [jsGetOpt, jsGet, hu, truthy] at h
    · simpa [jsGetOpt, jsGet] using MemVal.objMem hm
  | undefined => simp [jsGetOpt, truthy] at h
  | null => simp [jsGetOpt, truthy] at h
  | bool b => simp [jsGetOpt, jsGet, truthy] at h
  | num n => simp [jsGetOpt, jsGet, truthy] at h
  | str s => simp [jsGetOpt, jsGet, truthy] at h
  | arr xs => simp [jsGetOpt, jsGet, truthy] at h

lemma obj_of_truthy_jsGetOpt {m : JSVal} {k : String}
    (h : truthy (jsGetOpt m k) = true) : ∃ fs, m = .obj fs := by
  cases m with
  | obj fs => exact ⟨fs, rfl⟩
  | undefined => simp [jsGetOpt, truthy] at h
  | null => simp [jsGetOpt, truthy] at h
  | bool b => simp [jsGetOpt, jsGet, truthy] at h
  | num n => simp [jsGetOpt, jsGet, truthy] at h
  | str s => simp [jsGetOpt, jsGet, truthy] at h
  | arr xs => simp [jsGetOpt, jsGet, truthy] at h

lemma reach_jsGetOpt {v : JSVal} {k : String}
    (h : truthy (jsGetOpt v k) = true) : Reach (jsGetOpt v k) v :=
  Reach.step (Reach.refl _) (memVal_jsGetOpt h)

lemma reach_jsGetOpt_two {v : JSVal} {k₁ k₂ : String}
    (h : truthy (jsGetOpt (jsGetOpt v k₁) k₂) = true) :
    Reach (jsGetOpt (jsGetOpt v k₁) k₂) v := by
  obtain ⟨fs, hm⟩ := obj_of_truthy_jsGetOpt h
  have hmt : truthy (jsGetOpt v k₁) = true := by rw [hm]; rfl
  exact Reach.step (Reach.step (Reach.refl _) (memVal_jsGetOpt h))
    (memVal_jsGetOpt hmt)

lemma ite_some_elim {α : Type} {c : Prop} [Decidable c] {a : α} {f : Option α} {r : α}
    (h : (if c then some a else f) = some r) : (c ∧ a = r) ∨ (¬c ∧ f = some r) := by
  by_cases hc : c
  · rw [if_pos hc] at h
    exact Or.inl ⟨hc, Option.some.inj h⟩
  · rw [if_neg hc] at h
    exact Or.inr ⟨hc, h⟩

lemma ite_isSome {α : Type} {c : Prop} [Decidable c] {a : α} {f : Option α}
    (hf : f.isSome = true) : (if c then some a else f).isSome = true := by
  by_cases hc : c
  · rw [if_pos hc]; rfl
  · rw [if_neg hc]; exact hf

/-- Every result of the anchor normalizer is `null`, the input itself, a value
nested inside the input, or the fresh `{rows: input}` wrapper. -/
lemma unwrapData_anchor_shapeOf (v r : JSVal) (h : unwrapData_anchor v = some r) :
    r = .null ∨ r = v ∨ Reach r v ∨ r = .obj [("rows", v)] := by
  by_cases hv : truthy v = true
  · rw [unwrapData_anchor, if_neg (by simp [hv])] at h
    simp only [jsGet_eq_some hv, someBind] at h
    rcases ite_some_elim h with ⟨hc, rfl⟩ | ⟨-, h⟩
    · exact Or.inr (Or.inr (Or.inl (reach_jsGetOpt_two hc)))
    rcases ite_some_elim h with ⟨hc, rfl⟩ | ⟨-, h⟩
    · exact Or.inr (Or.inr (Or.inl (reach_jsGetOpt_two hc)))
    rcases ite_some_elim h with ⟨hc, rfl⟩ | ⟨-, h⟩
    · exact Or.inr (Or.inr (Or.inl (reach_jsGetOpt_two hc)))
    rcases ite_some_elim h with ⟨hc, rfl⟩ | ⟨-, h⟩
    · exact Or.inr (Or.inr (Or.inl (reach_jsGetOpt_two hc)))
    rcases ite_some_elim h with ⟨hc, rfl⟩ | ⟨-, h⟩
    · exact Or.inr (Or.inr (Or.inl (reach_jsGetOpt_two hc)))
    rcases ite_some_elim h with ⟨hc, rfl⟩ | ⟨-, h⟩
    · exact Or.inr (Or.inr (Or.inl (reach_jsGetOpt hc)))
    rcases ite_some_elim h with ⟨hc, rfl⟩ | ⟨-, h⟩
    · exact Or.inr (Or.inr (Or.inl (reach_jsGetOpt hc)))
    rcases ite_some_elim h with ⟨hc, rfl⟩ | ⟨-, h⟩
    · exact Or.inr (Or.inr (Or.inl (reach_jsGetOpt hc)))
    rcases ite_some_elim h with ⟨hc, rfl⟩ | ⟨-, h⟩
    · have hr : truthy (jsGetOpt v "rows") = true := by
        simp only [Bool.and_eq_true] at hc; tauto
      exact Or.inr (Or.inr (Or.inl (reach_jsGetOpt hr)))
    rcases ite_some_elim h with ⟨hc, rfl⟩ | ⟨-, h⟩
    · exact Or.inr (Or.inl rfl)
    rcases ite_some_elim h with ⟨hc, rfl⟩ | ⟨-, h⟩
    · exact Or.inr (Or.inr (Or.inr rfl))
    rcases ite_some_elim h with ⟨hc, rfl⟩ | ⟨-, h⟩
    · exact Or.inr (Or.inl rfl)
    exact Or.inr (Or.inl (Option.some.inj h).symm)
  · rw [unwrapData_anchor, if_pos (by simpa using hv)] at h
    exact Or.inl (Option.some.inj h).symm

/-- The anchor normalizer returns on every input (its embedding never hits a
nullish-base property access, the modelled TypeError). -/
lemma unwrapData_anchor_isSome (v : JSVal) : (unwrapData_anchor v).isSome = true := by
  by_cases hv : truthy v = true
  · rw [unwrapData_anchor, if_neg (by simp [hv])]
    simp only [jsGet_eq_some hv, someBind]
    exact ite_isSome (ite_isSome (ite_isSome (ite_isSome (ite_isSome (ite_isSome
      (ite_isSome (ite_isSome (ite_isSome (ite_isSome (ite_isSome (ite_isSome rfl)))))))))))
  · rw [unwrapData_anchor, if_pos (by simpa using hv)]
    rfl

/-- Result-shape characterization for the base-template-sdk normalizer. -/
lemma unwrapData_baseSdk_shapeOf (v r : JSVal) (h : unwrapData_baseSdk v = some r) :
    r = .null ∨ r = v ∨ Reach r v ∨ r = .obj [("rows", v)] := by
  by_cases hv : truthy v = true
  · rw [unwrapData_baseSdk, if_neg (by simp [hv])] at h
    simp only [jsGet_eq_some hv, someBind] at h
    rcases ite_some_elim h with ⟨hc, rfl⟩ | ⟨-, h⟩
    · exact Or.inr (Or.inr (Or.inl (reach_jsGetOpt_two hc)))
    rcases ite_some_elim h with ⟨hc, rfl⟩ | ⟨-, h⟩
    · exact Or.inr (Or.inr (Or.inl (reach_jsGetOpt_two hc)))
    rcases ite_some_elim h with ⟨hc, rfl⟩ | ⟨-, h⟩
    · exact Or.inr (Or.inr (Or.inl (reach_jsGetOpt_two hc)))
    rcases ite_some_elim h with ⟨hc, rfl⟩ | ⟨-, h⟩
    · exact Or.inr (Or.inr (Or.inl (reach_jsGetOpt_two hc)))
    rcases ite_some_elim h with ⟨hc, rfl⟩ | ⟨-, h⟩
    · exact Or.inr (Or.inr (Or.inl (reach_jsGetOpt_two hc)))
    rcases ite_some_elim h with ⟨hc, rfl⟩ | ⟨-, h⟩
    · exact Or.inr (Or.inr (Or.inl (reach_jsGetOpt hc)))
    rcases ite_some_elim h with ⟨hc, rfl⟩ | ⟨-, h⟩
    · exact Or.inr (Or.inr (Or.inl (reach_jsGetOpt hc)))
    rcases ite_some_elim h with ⟨hc, rfl⟩ | ⟨-, h⟩
    · exact Or.inr (Or.inr (Or.inl (reach_jsGetOpt hc)))
    rcases ite_some_elim h with ⟨hc, rfl⟩ | ⟨-, h⟩
    · have hr : truthy (jsGetOpt v "rows") = true := by
        simp only [Bool.and_eq_true] at hc; tauto
      exact Or.inr (Or.inr (Or.inl (reach_jsGetOpt hr)))
    rcases ite_some_elim h with ⟨hc, rfl⟩ | ⟨-, h⟩
    · exact Or.inr (Or.inl rfl)
    rcases ite_some_elim h with ⟨hc, rfl⟩ | ⟨-, h⟩
    · exact Or.inr (Or.inr (Or.inr rfl))
    exact Or.inr (Or.inl (Option.some.inj h).symm)
  · rw [unwrapData_baseSdk, if_pos (by simpa using hv)] at h
    exact Or.inl (Option.some.inj h).symm

/-- The base-template-sdk normalizer returns on every input. -/
lemma unwrapData_baseSdk_isSome (v : JSVal) : (unwrapData_baseSdk v).isSome = true := by
  by_cases hv : truthy v = true
  · rw [unwrapData_baseSdk, if_neg (by simp [hv])]
    simp only [jsGet_eq_some hv, someBind]
    exact ite_isSome (ite_isSome (ite_isSome (ite_isSome (ite_isSome (ite_isSome
      (ite_isSome (ite_isSome (ite_isSome (ite_isSome (ite_isSome rfl))))))))))
  · rw [unwrapData_baseSdk, if_pos (by simpa using hv)]
    rfl

/-! ## Claim C4 — template_data precedence -/

/-- C4 (as stated, refuted): a payload whose `.message` contains both
`template_data` and `response_content` need not normalize to
`message.template_data` — with the present-but-falsy `template_data: 0`, the
anchor `unwrapData` skips the truthiness-guarded `template_data` rule and
returns `response_content` instead. -/
theorem C4_counterexample :
    unwrapData_anchor (.obj [("message", .obj [("template_data", .num 0),
        ("response_content", .obj [("b", .num 2)])])])
      = some (.obj [("b", .num 2)]) ∧
    (JSVal.obj [("b", .num 2)]) ≠ .num 0 :=
  ⟨rfl, by simp⟩

/-- C4 (amended): for every truthy payload whose `message.template_data` is
truthy, `unwrapData` (anchor and base-template-sdk variants) returns
`message.template_data`; a truthy `template_data` takes precedence over
`response_content` regardless of the latter. -/
theorem C4_template_data_precedence (v : JSVal)
    (hv : truthy v = true)
    (ht : truthy (jsGetOpt (jsGetOpt v "message") "template_data") = true) :
    unwrapData_anchor v = some (jsGetOpt (jsGetOpt v "message") "template_data") ∧
    unwrapData_baseSdk v = some (jsGetOpt (jsGetOpt v "message") "template_data") := by
  constructor
  · rw [unwrapData_anchor, if_neg (by simp [hv])]
    simp only [jsGet_eq_some hv, someBind]
    rw [if_pos ht]
  · rw [unwrapData_baseSdk, if_neg (by simp [hv])]
    simp only [jsGet_eq_some hv, someBind]
    rw [if_pos ht]

/-- C4 witness: the spec's own example
`{message:{template_data:{a:1}, response_content:{b:2}}}` normalizes to
`{a:1}` in both variants. -/
theorem C4_witness :
    unwrapData_anchor (.obj [("message", .obj [("template_data", .obj [("a", .num 1)]),
        ("response_content", .obj [("b", .num 2)])])]) = some (.obj [("a", .num 1)]) ∧
    unwrapData_baseSdk (.obj [("message", .obj [("template_data", .obj [("a", .num 1)]),
        ("response_content", .obj [("b", .num 2)])])]) = some (.obj [("a", .num 1)]) :=
  C4_template_data_precedence _ rfl rfl

/-! ## Claim C5 — bare-array wrapping -/

/-- C5 (as stated, refuted): the part_004 `unwrapData` does not wrap bare
arrays — its Format 1 rule (`typeof data === 'object' && !data.message`)
matches every array, so `[1,2,3]` is returned unchanged rather than as
`{rows:[1,2,3]}`. -/
theorem C5_counterexample :
    unwrapData_part004 (.arr [.num 1, .num 2, .num 3])
      = some (.arr [.num 1, .num 2, .num 3]) ∧
    (JSVal.arr [.num 1, .num 2, .num 3])
      ≠ .obj [("rows", .arr [.num 1, .num 2, .num 3])] :=
  ⟨rfl, by simp⟩

/-- C5 (amended): every array input is returned as the fresh wrapper
`{rows: payload}` by the base-template-sdk and anchor variants of
`unwrapData`; the part_004 Format-1-short-circuit variant instead returns
arrays unchanged. -/
theorem C5_array_wrapping (xs : List JSVal) :
    unwrapData_baseSdk (.arr xs) = some (.obj [("rows", .arr xs)]) ∧
    unwrapData_anchor (.arr xs) = some (.obj [("rows", .arr xs)]) ∧
    unwrapData_part004 (.arr xs) = some (.arr xs) :=
  ⟨rfl, rfl, rfl⟩

/-! ## Claim C6 — double-wrap un-nesting -/

/-- C6 (as stated, refuted): the part_004 `unwrapData` has no un-nesting
rule — on `{rows:{columns:["x"], rows:[[1]]}}` its Format 1 rule (object
without `.message`) fires first and the payload is returned whole, not as the
nested `{columns, rows}` object. -/
theorem C6_counterexample :
    unwrapData_part004 (.obj [("rows", .obj [("columns", .arr [.str "x"]),
        ("rows", .arr [.arr [.num 1]])])])
      = some (.obj [("rows", .obj [("columns", .arr [.str "x"]),
        ("rows", .arr [.arr [.num 1]])])]) ∧
    (JSVal.obj [("rows", .obj [("columns", .arr [.str "x"]),
        ("rows", .arr [.arr [.num 1]])])])
      ≠ .obj [("columns", .arr [.str "x"]), ("rows", .arr [.arr [.num 1]])] :=
  ⟨rfl, by simp⟩

/-- C6 (amended): in the anchor and base-template-sdk variants, for every
truthy payload matched by no higher-precedence rule whose `.rows` is a truthy
non-array object with truthy `.columns` and `.rows`, `unwrapData` returns
that nested `.rows` object; the part_004 variant lacks this rule. -/
theorem C6_double_wrap_unnesting (v : JSVal)
    (hv : truthy v = true)
    (h1 : truthy (jsGetOpt (jsGetOpt v "message") "template_data") = false)
    (h2 : truthy (jsGetOpt (jsGetOpt v "message") "response_content") = false)
    (h3 : truthy (jsGetOpt (jsGetOpt v "data") "results") = false)
    (h4 : truthy (jsGetOpt (jsGetOpt v "data") "items") = false)
    (h5 : truthy (jsGetOpt (jsGetOpt v "data") "records") = false)
    (h6 : truthy (jsGetOpt v "results") = false)
    (h7 : truthy (jsGetOpt v "items") = false)
    (h8 : truthy (jsGetOpt v "records") = false)
    (h9 : truthy (jsGetOpt v "rows") = true)
    (h10 : typeofStr (jsGetOpt v "rows") = "object")
    (h11 : isArr (jsGetOpt v "rows") = false)
    (h12 : truthy (jsGetOpt (jsGetOpt v "rows") "columns") = true)
    (h13 : truthy (jsGetOpt (jsGetOpt v "rows") "rows") = true) :
    unwrapData_anchor v = some (jsGetOpt v "rows") ∧
    unwrapData_baseSdk v = some (jsGetOpt v "rows") := by
  have hbig : (truthy (jsGetOpt v "rows") && typeofStr (jsGetOpt v "rows") == "object"
      && !isArr (jsGetOpt v "rows") && truthy (jsGetOpt (jsGetOpt v "rows") "columns")
      && truthy (jsGetOpt (jsGetOpt v "rows") "rows")) = true := by
    simp [h9, h10, h11, h12, h13]
  constructor
  · rw [unwrapData_anchor, if_neg (by simp [hv])]
    simp only [jsGet_eq_some hv, someBind]
    rw [if_neg (by simp [h1]), if_neg (by simp [h2]), if_neg (by simp [h3]),
      if_neg (by simp [h4]), if_neg (by simp [h5]), if_neg (by simp [h6]),
      if_neg (by simp [h7]), if_neg (by simp [h8]), if_pos hbig]
  · rw [unwrapData_baseSdk, if_neg (by simp [hv])]
    simp only [jsGet_eq_some hv, someBind]
    rw [if_neg (by simp [h1]), if_neg (by simp [h2]), if_neg (by simp [h3]),
      if_neg (by simp [h4]), if_neg (by simp [h5]), if_neg (by simp [h6]),
      if_neg (by simp [h7]), if_neg (by simp [h8]), if_pos hbig]

/-- C6 witness: the spec's example `{rows:{columns:["x"], rows:[[1]]}}`
un-nests to `{columns:["x"], rows:[[1]]}` in the anchor and base-template-sdk
variants. -/
theorem C6_witness :
    unwrapData_anchor (.obj [("rows", .obj [("columns", .arr [.str "x"]),
        ("rows", .arr [.arr [.num 1]])])])
      = some (.obj [("columns", .arr [.str "x"]), ("rows", .arr [.arr [.num 1]])]) ∧
    unwrapData_baseSdk (.obj [("rows", .obj [("columns", .arr [.str "x"]),
        ("rows", .arr [.arr [.num 1]])])])
      = some (.obj [("columns", .arr [.str "x"]), ("rows", .arr [.arr [.num 1]])]) :=
  C6_double_wrap_unnesting _ rfl rfl rfl rfl rfl rfl rfl rfl rfl rfl rfl rfl rfl rfl

/-! ## Claim C7 — normalizer totality -/

/-- C7: the anchor `unwrapData` is total — its embedding (where property
access on a nullish base is a modelled TypeError) returns on every input of
every type, and returns `null` on every falsy input. -/
theorem C7_normalize_total (v : JSVal) :
    (unwrapData_anchor v).isSome = true ∧
    (truthy v = false → unwrapData_anchor v = some .null) := by
  refine ⟨unwrapData_anchor_isSome v, fun hv => ?_⟩
  rw [unwrapData_anchor, if_pos hv]

/-- C7 witness: at the falsy input `0`, the normalizer returns, and returns
`null`. -/
theorem C7_witness :
    (unwrapData_anchor (.num 0)).isSome = true ∧
    unwrapData_anchor (.num 0) = some .null :=
  ⟨(C7_normalize_total (.num 0)).1, (C7_normalize_total (.num 0)).2 rfl⟩

/-! ## Claim C9 — escapeHtml on non-strings -/

/-- C9 (as stated, refuted): the anchor variant of `escapeHtml` does not
return a non-string argument unchanged — it returns the `String(...)`
coercion: `escapeHtml(5)` is the string `"5"`, not the number `5`. -/
theorem C9_counterexample :
    escapeHtml_anchor (.num 5) = .str "5" ∧ (JSVal.str "5") ≠ .num 5 :=
  ⟨rfl, by simp⟩

/-- C9 (amended): for every non-string input, the part_004 `escapeHtml`
returns the argument unchanged while the anchor variant returns its
`String(...)` coercion; HTML escaping applies only to string inputs in both
variants. -/
theorem C9_escapeHtml_nonstring (v : JSVal)
    (h : (typeofStr v == "string") = false) :
    escapeHtml_part004 v = v ∧ escapeHtml_anchor v = .str (jsString v) := by
  cases v <;> first
    | exact ⟨rfl, rfl⟩
    | simp [typeofStr] at h

/-- C9 witness: at the number `5`, part_004's helper returns `5` and the
anchor helper returns `"5"`. -/
theorem C9_witness :
    escapeHtml_part004 (.num 5) = .num 5 ∧ escapeHtml_anchor (.num 5) = .str "5" :=
  C9_escapeHtml_nonstring (.num 5) rfl

/-! ## Claim C10 — normalizer frame property -/

/-- C10: `unwrapData` (anchor and base-template-sdk variants) never mutates
its argument: in the pure embedding, every result is `null`, the input
itself, a component reachable inside the input, or the freshly constructed
`{rows: input}` wrapper — no other value (in particular no modified copy of
the input) can be produced. -/
theorem C10_normalize_no_mutation (v : JSVal) :
    (∃ r, unwrapData_anchor v = some r ∧
      (r = .null ∨ r = v ∨ Reach r v ∨ r = .obj [("rows", v)])) ∧
    (∃ r, unwrapData_baseSdk v = some r ∧
      (r = .null ∨ r = v ∨ Reach r v ∨ r = .obj [("rows", v)])) := by
  constructor
  · obtain ⟨r, hr⟩ := Option.isSome_iff_exists.mp (unwrapData_anchor_isSome v)
    exact ⟨r, hr, unwrapData_anchor_shapeOf v r hr⟩
  · obtain ⟨r, hr⟩ := Option.isSome_iff_exists.mp (unwrapData_baseSdk_isSome v)
    exact ⟨r, hr, unwrapData_baseSdk_shapeOf v r hr⟩

/-! ## Handler lemmas -/

lemma jsGet_obj (fs : List (String × JSVal)) (k : String) :
    jsGet (.obj fs) k = some (lookupField fs k) := rfl

lemma beq_undef_eq_false {x : JSVal} (h : x ≠ .undefined) : beq x .undefined = false := by
  cases x <;> simp_all [beq]

lemma truthy_ne_undef {x : JSVal} (h : truthy x = true) : x ≠ .undefined := by
  cases x <;> simp_all [truthy]

lemma ne_undef_of_not_nullish {x : JSVal} (h : nullish x = false) : x ≠ .undefined := by
  cases x <;> simp_all [nullish]

/-- Partial evaluation of the part_004 listener on a well-formed tool-result
notification: only the `||`-selection branch remains. -/
lemma handler_part004_toolResult (p : JSVal) :
    handler_part004 (toolResultMsg p) =
      (if !beq (jsOr (jsGetOpt p "structuredContent") p) .undefined
        then some [.render (jsOr (jsGetOpt p "structuredContent") p)]
        else some [.consoleWarn "ui/notifications/tool-result received but no data found",
                   .showEmpty "No data received"]) := rfl

/-- Partial evaluation of the google-calendar-events listener on a
well-formed tool-result notification: only the `??`-selection branch
remains. -/
lemma handler_gcal_toolResult (st : GcalState) (p : JSVal) :
    handler_gcal st (toolResultMsg p) =
      (if !beq (jsCoalesce (jsGetOpt p "structuredContent") p) .undefined
        then some ([.render (jsCoalesce (jsGetOpt p "structuredContent") p)], st)
        else some ([.showEmpty "No data received."], st)) := rfl

/-! ## Claim C1 — teardown acknowledgment -/

/-- C1: for every inbound object with `jsonrpc:"2.0"`, a defined `id` and
method `ui/resource-teardown`, the part_004 listener and the part_005
listener (from any state of its cleanup flags) each post exactly one outbound
response `{jsonrpc:"2.0", id, result:{}}` echoing that id, and throw nothing;
in part_005 the inline cleanup (timer clear, observer disconnect, listener
removal — built-in calls that cannot throw) runs before the unconditional
response. -/
theorem C1_teardown_ack (fs : List (String × JSVal)) (st : P5State)
    (hj : lookupField fs "jsonrpc" = .str "2.0")
    (hid : lookupField fs "id" ≠ .undefined)
    (hm : lookupField fs "method" = .str "ui/resource-teardown") :
    (handler_part004 (.obj fs)).map postsOf = some [teardownResp (lookupField fs "id")] ∧
    ((handler_part005 st (.obj fs)).map fun p => postsOf p.1)
      = some [teardownResp (lookupField fs "id")] := by
  obtain ⟨a, b, c⟩ := st
  constructor
  · rw [handler_part004]
    simp [jsGet_obj, someBind, hj, hm, beq_undef_eq_false hid, postsOf, truthy, beq]
  · rw [handler_part005]
    cases a <;> cases b <;> cases c <;>
      simp [jsGet_obj, someBind, hj, hm, beq_undef_eq_false hid, postsOf, p5Cleanup,
        truthy, beq]

/-- C1 witness: the teardown request with id 7 is acknowledged exactly once
by both listeners, the part_005 one starting from fully live cleanup flags. -/
theorem C1_witness :
    (handler_part004 (.obj [("jsonrpc", .str "2.0"), ("id", .num 7),
        ("method", .str "ui/resource-teardown")])).map postsOf
      = some [teardownResp (.num 7)] ∧
    ((handler_part005 ⟨true, true, true⟩ (.obj [("jsonrpc", .str "2.0"), ("id", .num 7),
        ("method", .str "ui/resource-teardown")])).map fun p => postsOf p.1)
      = some [teardownResp (.num 7)] :=
  C1_teardown_ack _ ⟨true, true, true⟩ rfl (fun h => nomatch h) rfl

/-! ## Claim C3 — tool-result payload selection -/

/-- C3 (as stated, refuted): the part_004 listener selects the tool-result
payload with `||`, not `??` — with `params = {structuredContent: 0}` it hands
the render collaborator `params` itself, not the defined-but-falsy
`structuredContent` value `0`. -/
theorem C3_counterexample :
    handler_part004 (toolResultMsg (.obj [("structuredContent", .num 0)]))
      = some [.render (.obj [("structuredContent", .num 0)])] ∧
    (JSVal.obj [("structuredContent", .num 0)]) ≠ .num 0 :=
  ⟨rfl, by simp⟩

/-- C3 (amended): on a tool-result notification, the google-calendar-events
listener hands on `params.structuredContent ?? params` (so a non-nullish,
even falsy, `structuredContent` is the chosen payload), while the part_004
listener hands on `params.structuredContent || params` (a defined-but-falsy
`structuredContent` falls through to `params`); when the selected payload is
undefined, each triggers its "show empty" state with its method-specific
default message. -/
theorem C3_tool_result_selection (p : JSVal) (st : GcalState) :
    (nullish (jsGetOpt p "structuredContent") = false →
      handler_gcal st (toolResultMsg p)
        = some ([.render (jsGetOpt p "structuredContent")], st)) ∧
    (truthy (jsGetOpt p "structuredContent") = true →
      handler_part004 (toolResultMsg p) = some [.render (jsGetOpt p "structuredContent")]) ∧
    (truthy (jsGetOpt p "structuredContent") = false → truthy p = true →
      handler_part004 (toolResultMsg p) = some [.render p]) ∧
    (p = .undefined →
      handler_part004 (toolResultMsg p)
        = some [.consoleWarn "ui/notifications/tool-result received but no data found",
                .showEmpty "No data received"] ∧
      handler_gcal st (toolResultMsg p) = some ([.showEmpty "No data received."], st)) := by
  refine ⟨fun h => ?_, fun h => ?_, fun h hp => ?_, fun h => ?_⟩
  · rw [handler_gcal_toolResult]
    have hd : jsCoalesce (jsGetOpt p "structuredContent") p = jsGetOpt p "structuredContent" := by
      rw [jsCoalesce, if_neg (by simp [h])]
    rw [hd, if_pos (by simp [beq_undef_eq_false (ne_undef_of_not_nullish h)])]
  · rw [handler_part004_toolResult]
    have hd : jsOr (jsGetOpt p "structuredContent") p = jsGetOpt p "structuredContent" := by
      rw [jsOr, if_pos h]
    rw [hd, if_pos (by simp [beq_undef_eq_false (truthy_ne_undef h)])]
  · rw [handler_part004_toolResult]
    have hd : jsOr (jsGetOpt p "structuredContent") p = p := by
      rw [jsOr, if_neg (by simp [h])]
    rw [hd, if_pos (by simp [beq_undef_eq_false (truthy_ne_undef hp)])]
  · subst h
    exact ⟨rfl, rfl⟩

/-- C3 witness: with `structuredContent: 0` the google-calendar-events
listener renders `0`; with a truthy `structuredContent` the part_004 listener
renders it; with no params at all, part_004 shows its empty state. -/
theorem C3_witness :
    handler_gcal ⟨false, false⟩ (toolResultMsg (.obj [("structuredContent", .num 0)]))
      = some ([.render (.num 0)], ⟨false, false⟩) ∧
    handler_part004 (toolResultMsg (.obj [("structuredContent", .obj [("a", .num 1)])]))
      = some [.render (.obj [("a", .num 1)])] ∧
    handler_part004 (toolResultMsg .undefined)
      = some [.consoleWarn "ui/notifications/tool-result received but no data found",
              .showEmpty "No data received"] :=
  ⟨(C3_tool_result_selection (.obj [("structuredContent", .num 0)]) ⟨false, false⟩).1 rfl,
   (C3_tool_result_selection (.obj [("structuredContent", .obj [("a", .num 1)])])
      ⟨false, false⟩).2.1 rfl,
   ((C3_tool_result_selection .undefined ⟨false, false⟩).2.2.2 rfl).1⟩

/-! ## Claim C8 — malformed input tolerance -/

/-- C8: every inbound value that is not an object with `jsonrpc === "2.0"`
(e.g. `{}`, `null`, a plain string) produces no observable effect and no
exception in the part_004 and anchor listeners; and every accepted message
carrying an `id` but no `method` is likewise not dispatched by the method
switch — it produces no effect at all. -/
theorem C8_receive_tolerance (v : JSVal)
    (h : (truthy v && beq (jsGetOpt v "jsonrpc") (.str "2.0")) = false
       ∨ (beq (jsGetOpt v "id") .undefined = false ∧ jsGetOpt v "method" = .undefined)) :
    handler_part004 v = some [] ∧ handler_anchor v = some [] := by
  by_cases hv : truthy v = true
  · by_cases hj : beq (jsGetOpt v "jsonrpc") (.str "2.0") = true
    · rcases h with hA | ⟨hid, hm⟩
      · rw [hv, hj] at hA
        simp at hA
      constructor
      · rw [handler_part004, if_neg (by simp [hv])]
        simp [jsGet_eq_some hv, someBind, hj, hm, hid, truthy]
      · rw [handler_anchor, if_neg (by simp [hv])]
        simp [jsGet_eq_some hv, someBind, hj, hm, truthy, beq]
    · have hj2 : beq (jsGetOpt v "jsonrpc") (.str "2.0") = false := by simpa using hj
      constructor
      · rw [handler_part004, if_neg (by simp [hv])]
        simp [jsGet_eq_some hv, someBind, hj2]
      · rw [handler_anchor, if_neg (by simp [hv])]
        simp [jsGet_eq_some hv, someBind, hj2]
  · have hv2 : truthy v = false := by simpa using hv
    constructor
    · rw [handler_part004, if_pos hv2]
    · rw [handler_anchor, if_pos hv2]

/-- C8 witness: `null` (malformed) and `{jsonrpc:"2.0", id:3}` (a response —
id without method) each produce no effect in either listener. -/
theorem C8_witness :
    (handler_part004 .null = some [] ∧ handler_anchor .null = some []) ∧
    (handler_part004 (.obj [("jsonrpc", .str "2.0"), ("id", .num 3)]) = some [] ∧
     handler_anchor (.obj [("jsonrpc", .str "2.0"), ("id", .num 3)]) = some []) :=
  ⟨C8_receive_tolerance .null (Or.inl rfl),
   C8_receive_tolerance (.obj [("jsonrpc", .str "2.0"), ("id", .num 3)])
     (Or.inr ⟨rfl, rfl⟩)⟩

/-! ## Request/response correlation lemmas -/

lemma idsFrom_eq (c : Int) (n : Nat) :
    idsFrom c n = List.map (fun i : Nat => c + (i : Int)) (List.range n) := by
  induction n generalizing c with
  | zero => rfl
  | succ n ih =>
    rw [idsFrom, ih, List.range_succ_eq_map]
    simp only [List.map_cons, List.map_map, sendRequestId, Function.comp]
    congr 1
    · simp
    · congr 1
      funext i
      simp only [Function.comp_apply]
      push_cast
      ring

lemma settle_isSome (s : Option Outcome) (o : Outcome) : (settle s o).isSome = true := by
  cases s <;> rfl

lemma stepReq_inert {id : Int} {s : RState} {e : Ev} (h : inertFor id e = true) :
    stepReq id s e = s := by
  cases e with
  | timeoutFire => simp [inertFor] at h
  | reply m =>
    simp only [inertFor, Bool.not_eq_true'] at h
    simp [stepReq, h]

lemma foldl_inert {id : Int} {evs : List Ev} (s : RState)
    (h : evs.all (inertFor id) = true) : evs.foldl (stepReq id) s = s := by
  induction evs generalizing s with
  | nil => rfl
  | cons e es ih =>
    simp only [List.all_cons, Bool.and_eq_true] at h
    rw [List.foldl_cons, stepReq_inert h.1, ih _ h.2]

lemma stepReq_frozen {id : Int} {o : Outcome} (e : Ev) :
    stepReq id ⟨false, some o⟩ e = ⟨false, some o⟩ := by
  cases e <;> simp [stepReq, settle]

lemma foldl_frozen {id : Int} {o : Outcome} (evs : List Ev) :
    evs.foldl (stepReq id) ⟨false, some o⟩ = ⟨false, some o⟩ := by
  induction evs with
  | nil => rfl
  | cons e es ih => rw [List.foldl_cons, stepReq_frozen, ih]

lemma stepReq_isSome {id : Int} {s : RState} (e : Ev) (h : s.outcome.isSome = true) :
    ((stepReq id s e).outcome).isSome = true := by
  cases e with
  | timeoutFire => simp [stepReq, settle_isSome]
  | reply m =>
    by_cases hc : (s.active && beq (jsGetOpt m "id") (.num id)) = true
    · simp only [stepReq, if_pos hc]
      by_cases h1 : truthy (jsGetOpt m "result") = true
      · simp [h1, settle_isSome]
      · by_cases h2 : truthy (jsGetOpt m "error") = true
        · simp [h1, h2, settle_isSome]
        · simp [h1, h2, h]
    · simp only [stepReq, if_neg hc]
      exact h

lemma foldl_isSome {id : Int} (evs : List Ev) :
    ∀ s : RState, s.outcome.isSome = true →
      ((evs.foldl (stepReq id) s).outcome).isSome = true := by
  induction evs with
  | nil => exact fun _ h => h
  | cons e es ih => exact fun s h => ih _ (stepReq_isSome e h)

/-! ## Claim C2 — sendRequest id assignment and correlation -/

/-- C2 (as stated, refuted): a matching reply that carries a result need not
resolve the promise — the listener tests `if (event.data?.result)` by
truthiness, so the reply `{id:1, result:0}` unregisters the listener without
settling anything, and the 5-second timer then rejects with the timeout
error instead of the promise resolving with `0`. -/
theorem C2_counterexample :
    (runReq 1 [.reply (.obj [("id", .num 1), ("result", .num 0)]), .timeoutFire]).outcome
      = some .rejectedTimeout ∧
    (Outcome.rejectedTimeout) ≠ .resolved (.num 0) :=
  ⟨rfl, by simp⟩

/-- C2 (amended): `sendRequest` assigns ids from a monotonic counter starting
at 1, never reused (consecutive calls get 1, 2, 3, ...); a reply whose id
matches and whose `result` is truthy resolves the promise with that result; a
reply with an unrelated id neither resolves nor rejects; with no matching
reply the firing of the 5-second timer rejects with the timeout error, and
any later matching reply is a no-op (the listener was removed); every
complete trace (one containing the timer event) settles the promise exactly
once; and a matching reply whose `result` and `error` are both falsy removes
the listener without settling, so the promise then rejects at the timeout. -/
theorem C2_request_correlation (n : Nat) (id : Int) (pre post evs : List Ev) (m : JSVal) :
    (idsFrom 1 n = List.map (fun i : Nat => (i : Int) + 1) (List.range n) ∧
      (idsFrom 1 n).Nodup) ∧
    (pre.all (inertFor id) = true → beq (jsGetOpt m "id") (.num id) = true →
      truthy (jsGetOpt m "result") = true →
      (runReq id (pre ++ .reply m :: post)).outcome
        = some (.resolved (jsGetOpt m "result"))) ∧
    (evs.all (inertFor id) = true → (runReq id evs).outcome = none) ∧
    (pre.all (inertFor id) = true →
      (runReq id (pre ++ .timeoutFire :: post)).outcome = some .rejectedTimeout) ∧
    ((runReq id (pre ++ .timeoutFire :: post)).outcome.isSome = true) ∧
    (pre.all (inertFor id) = true → beq (jsGetOpt m "id") (.num id) = true →
      truthy (jsGetOpt m "result") = false → truthy (jsGetOpt m "error") = false →
      (runReq id (pre ++ .reply m :: .timeoutFire :: post)).outcome
        = some .rejectedTimeout) := by
  refine ⟨⟨?_, ?_⟩, fun hp hm hr => ?_, fun he => ?_, fun hp => ?_, ?_, fun hp hm hr her => ?_⟩
  · rw [idsFrom_eq]
    congr 1
    funext i
    ring
  · rw [idsFrom_eq]
    exact List.Nodup.map (fun a b hab => by omega) (List.nodup_range n)
  · rw [runReq, List.foldl_append, foldl_inert _ hp, List.foldl_cons]
    have hstep : stepReq id ⟨true, none⟩ (.reply m)
        = ⟨false, some (.resolved (jsGetOpt m "result"))⟩ := by
      simp [stepReq, hm, hr, settle]
    rw [hstep, foldl_frozen]
  · rw [runReq, foldl_inert _ he]
  · rw [runReq, List.foldl_append, foldl_inert _ hp, List.foldl_cons]
    have hstep : stepReq id ⟨true, none⟩ .timeoutFire = ⟨false, some .rejectedTimeout⟩ := by
      simp [stepReq, settle]
    rw [hstep, foldl_frozen]
  · rw [runReq, List.foldl_append, List.foldl_cons]
    have h1 : ((stepReq id (pre.foldl (stepReq id) ⟨true, none⟩) .timeoutFire).outcome).isSome
        = true := by
      simp [stepReq, settle_isSome]
    exact foldl_isSome post _ h1
  · rw [runReq, List.foldl_append, foldl_inert _ hp, List.foldl_cons]
    have hstep : stepReq id ⟨true, none⟩ (.reply m) = ⟨false, none⟩ := by
      simp [stepReq, hm, hr, her]
    rw [hstep, List.foldl_cons]
    have hstep2 : stepReq id ⟨false, none⟩ .timeoutFire = ⟨false, some .rejectedTimeout⟩ := by
      simp [stepReq, settle]
    rw [hstep2, foldl_frozen]

/-- C2 witness: a non-matching reply followed by the matching reply
`{id:1, result:{ok:true}}` resolves with `{ok:true}` (the later timer firing
is a no-op); a lone unrelated reply settles nothing; a matching reply
arriving after the timer fired is a no-op and the outcome stays the timeout
rejection; and three consecutive calls are assigned ids 1, 2, 3. -/
theorem C2_witness :
    (runReq 1 [.reply (.obj [("id", .num 2), ("result", .obj [])]),
               .reply (.obj [("id", .num 1), ("result", .obj [("ok", .bool true)])]),
               .timeoutFire]).outcome
      = some (.resolved (.obj [("ok", .bool true)])) ∧
    (runReq 1 [.reply (.obj [("id", .num 5), ("result", .obj [])])]).outcome = none ∧
    (runReq 1 [.timeoutFire, .reply (.obj [("id", .num 1), ("result", .obj [])])]).outcome
      = some .rejectedTimeout ∧
    idsFrom 1 3 = [1, 2, 3] :=
  ⟨(C2_request_correlation 3 1 [.reply (.obj [("id", .num 2), ("result", .obj [])])]
      [.timeoutFire] []
      (.obj [("id", .num 1), ("result", .obj [("ok", .bool true)])])).2.1 rfl rfl rfl,
   (C2_request_correlation 3 1 [] [] [.reply (.obj [("id", .num 5), ("result", .obj [])])]
      (.obj [])).2.2.1 rfl,
   (C2_request_correlation 3 1 [] [.reply (.obj [("id", .num 1), ("result", .obj [])])] []
      (.obj [])).2.2.2.1 rfl,
   (C2_request_correlation 3 1 [] [] [] (.obj [])).1.1⟩

end McpApps
